import Mathlib

/-!
# Verification of the create-express-kickstart template-assembly engine

Shallow embedding of the generator in `bin/cli.js` together with the two
template files it patches: the composition root (`src/app.js`) and the
bootstrap (`src/server.js`).  The generator works by string patching: it
copies the fixed templates and then deletes or inserts whole, exactly
delimited blocks of text with anchored regular-expression replacements,
one block per feature flag.  Every regular expression used by `init` in
`bin/cli.js` matches exactly one contiguous block of the template it is
applied to, so the patching is embedded faithfully as operations on a
list of segments, where each segment carries the exact source lines of
the block it stands for.
-/

set_option maxRecDepth 8192
set_option synthInstance.maxSize 2000
set_option synthInstance.maxHeartbeats 1000000

/-- The dependency-selection record built by `init` in `bin/cli.js`
(the `deps` object): one boolean per togglable feature, in the key order
of the source (`express` is always `true` in the source and is therefore
not a field here; it is handled where the source consults it). -/
structure Deps where
  mongoose : Bool
  cors : Bool
  helmet : Bool
  cookieParser : Bool
  pinoHttp : Bool
  expressRateLimit : Bool
  dotenv : Bool
  prettier : Bool
deriving DecidableEq

/-- Segments of the composition-root template (`src/app.js`, the template
text observed in the repository).  Each constructor stands for one
contiguous block of the template; the blocks are exactly the units that
the regular expressions of `bin/cli.js` lines 189-219 insert or delete.
`blank` stands for an empty separator line (the patch regexes never touch
blank lines). -/
inductive AppSeg where
  | importExpress
  | importCors
  | importCookieParser
  | importHelmet
  | importPinoHttp
  | importRateLimit
  | importErrorHandler
  | importRoutersAnchor
  | importAuthRouter
  | importHealthcheckRouter
  | appInit
  | useHelmet
  | rateLimitBlock
  | loggingBlock
  | corsBlock
  | payloadComment
  | jsonParser
  | urlencodedParser
  | staticFiles
  | useCookieParser
  | apiRoutesComment
  | mountRoutersAnchor
  | mountAuthRouter
  | mountHealthcheck
  | useErrorHandler
  | exportApp
  | blank
deriving DecidableEq, Fintype

open AppSeg

/-- The composition-root template `src/app.js` as shipped with the
generator, segment by segment, in the exact order of the file. -/
def appJsTemplate : List AppSeg :=
  [importExpress, importCors, importCookieParser, importHelmet, importPinoHttp,
   importRateLimit, importErrorHandler, blank, importRoutersAnchor,
   importHealthcheckRouter, blank, appInit, blank, useHelmet, blank,
   rateLimitBlock, blank, loggingBlock, blank, corsBlock, blank,
   payloadComment, jsonParser, urlencodedParser, staticFiles, useCookieParser,
   blank, apiRoutesComment, mountRoutersAnchor, mountHealthcheck, blank,
   useErrorHandler, blank, exportApp]

/-- `String.replace(anchor, anchor + "\n" + inserted)` on a template in
which the anchor line occurs exactly once: the inserted segment is placed
directly after the first occurrence of the anchor segment. -/
def insertAfter (anchor inserted : AppSeg) : List AppSeg → List AppSeg
  | [] => []
  | s :: rest =>
      if s == anchor then s :: inserted :: rest
      else s :: insertAfter anchor inserted rest

/-- The `app.js` patching pipeline of `init` (`bin/cli.js` lines 186-222):
insert the auth router at the two anchors when `initAuth` is set, then for
each disabled feature delete the feature's import line and its usage
block.  Each deletion mirrors one `appJsCode.replace(regex, '')` call;
every regex matches exactly the indicated segment of the template. -/
def patchAppJs (d : Deps) (initAuth : Bool) (segs0 : List AppSeg) : List AppSeg :=
  let s1 := if initAuth then
      insertAfter mountRoutersAnchor mountAuthRouter
        (insertAfter importRoutersAnchor importAuthRouter segs0)
    else segs0
  let s2 := if d.cors then s1 else
    s1.filter (fun s => !(s == importCors || s == corsBlock))
  let s3 := if d.helmet then s2 else
    s2.filter (fun s => !(s == importHelmet || s == useHelmet))
  let s4 := if d.cookieParser then s3 else
    s3.filter (fun s => !(s == importCookieParser || s == useCookieParser))
  let s5 := if d.pinoHttp then s4 else
    s4.filter (fun s => !(s == importPinoHttp || s == loggingBlock))
  if d.expressRateLimit then s5 else
    s5.filter (fun s => !(s == importRateLimit || s == rateLimitBlock))

/-- The rendered composition root for a configuration: the template after
the conditional patching of `init`. -/
def renderAppJs (d : Deps) (initAuth : Bool) : List AppSeg :=
  patchAppJs d initAuth appJsTemplate

/-- The exact source lines of each segment of the `app.js` template, as
they appear in the repository's template file (a literal `{`, `}` or `'`
of the JavaScript text is written with its `\x` escape). -/
def appSegLines : AppSeg → List String
  | importExpress => ["import express from \"express\";"]
  | importCors => ["import cors from \"cors\";"]
  | importCookieParser => ["import cookieParser from \"cookie-parser\";"]
  | importHelmet => ["import helmet from \"helmet\";"]
  | importPinoHttp => ["import pinoHttp from \"pino-http\";"]
  | importRateLimit => ["import rateLimit from \"express-rate-limit\";"]
  | importErrorHandler =>
      ["import \x7b errorHandler \x7d from \"#middlewares/errorHandler.middleware.js\";"]
  | importRoutersAnchor => ["// Import routers"]
  | importAuthRouter => ["import authRouter from \"#routes/auth.routes.js\";"]
  | importHealthcheckRouter =>
      ["import healthcheckRouter from \"#routes/healthcheck.routes.js\";"]
  | appInit => ["const app = express();"]
  | useHelmet => ["// Security HTTP headers", "app.use(helmet());"]
  | rateLimitBlock =>
      ["// Rate Limiting",
       "const limiter = rateLimit(\x7b",
       "    windowMs: process.env.RATE_LIMIT_WINDOW_MS || 15 * 60 * 1000, // Default 15 minutes",
       "    limit: process.env.RATE_LIMIT_MAX || 100, // Limit each IP to 100 requests per `window` (here, per 15 minutes)",
       "    standardHeaders: \x27draft-7\x27, // draft-6: `RateLimit-*` headers; draft-7: combined `RateLimit` header",
       "    legacyHeaders: false, // Disable the `X-RateLimit-*` headers",
       "    message: \"Too many requests from this IP, please try again later\"",
       "\x7d);",
       "app.use(\"/api\", limiter); // Apply rate limiting to all API routes"]
  | loggingBlock =>
      ["// Logging",
       "app.use(pinoHttp(\x7b",
       "    customLogLevel: function (req, res, err) \x7b",
       "        if (res.statusCode >= 400 && res.statusCode < 500) \x7b",
       "            return \x27warn\x27",
       "        \x7d else if (res.statusCode >= 500 || err) \x7b",
       "            return \x27error\x27",
       "        \x7d else if (res.statusCode >= 300 && res.statusCode < 400) \x7b",
       "            return \x27silent\x27",
       "        \x7d",
       "        return \x27info\x27",
       "    \x7d,",
       "    // Dynamically require pino-pretty if in dev and it exists, else undefined",
       "    transport: process.env.NODE_ENV === \"development\" ? (function() \x7b",
       "        try \x7b",
       "            import(\"pino-pretty\");",
       "            return \x7b",
       "                target: \x27pino-pretty\x27,",
       "                options: \x7b colorize: true \x7d",
       "            \x7d;",
       "        \x7d catch (e) \x7b",
       "            return undefined;",
       "        \x7d",
       "    \x7d)() : undefined",
       "\x7d));"]
  | corsBlock =>
      ["// CORS setup",
       "app.use(",
       "    cors(\x7b",
       "        origin: process.env.CORS_ORIGIN || \"*\", // Fallback to allowing everything",
       "        credentials: true, // Allow cookies with requests",
       "    \x7d)",
       ");"]
  | payloadComment => ["// Payload sizes and forms"]
  | jsonParser => ["app.use(express.json(\x7b limit: \"16kb\" \x7d));"]
  | urlencodedParser => ["app.use(express.urlencoded(\x7b extended: true, limit: \"16kb\" \x7d));"]
  | staticFiles => ["app.use(express.static(\"public\")); "]
  | useCookieParser => ["app.use(cookieParser());"]
  | apiRoutesComment => ["// -------- API ROUTES ---------"]
  | mountRoutersAnchor => ["// Mount routers"]
  | mountAuthRouter => ["app.use(\"/api/v1/auth\", authRouter);"]
  | mountHealthcheck => ["app.use(\"/api/v1/healthcheck\", healthcheckRouter);"]
  | useErrorHandler =>
      ["// Global Error Handler",
       "// Always add this as the very last middleware",
       "app.use(errorHandler);"]
  | exportApp => ["export \x7b app \x7d;"]
  | blank => [""]

/-- The rendered composition-root text, line by line. -/
def appLines (d : Deps) (initAuth : Bool) : List String :=
  ((renderAppJs d initAuth).map appSegLines).flatten

lemma mem_appLines (l : String) (d : Deps) (ia : Bool) :
    l ∈ appLines d ia ↔ ∃ s, s ∈ renderAppJs d ia ∧ l ∈ appSegLines s := by
  unfold appLines
  rw [List.mem_flatten]
  constructor
  · rintro ⟨t, ht, hl⟩
    obtain ⟨s, hs, rfl⟩ := List.mem_map.mp ht
    exact ⟨s, hs, hl⟩
  · rintro ⟨s, hs, hl⟩
    exact ⟨appSegLines s, List.mem_map.mpr ⟨s, hs, rfl⟩, hl⟩

/-- A line that occurs in exactly one segment's text occurs in the
rendered text exactly when that segment survives the patching. -/
lemma line_home (l : String) (s0 : AppSeg)
    (h : ∀ s : AppSeg, l ∈ appSegLines s ↔ s = s0)
    (d : Deps) (ia : Bool) :
    l ∈ appLines d ia ↔ s0 ∈ renderAppJs d ia := by
  rw [mem_appLines]
  constructor
  · rintro ⟨s, hs, hl⟩
    rwa [(h s).mp hl] at hs
  · intro hs
    exact ⟨s0, hs, (h s0).mpr rfl⟩

def corsImportLine : String := "import cors from \"cors\";"

def corsUseLine : String := "    cors(\x7b"

def helmetImportLine : String := "import helmet from \"helmet\";"

def helmetUseLine : String := "app.use(helmet());"

def cookieParserImportLine : String := "import cookieParser from \"cookie-parser\";"

def cookieParserUseLine : String := "app.use(cookieParser());"

def pinoHttpImportLine : String := "import pinoHttp from \"pino-http\";"

def pinoHttpUseLine : String := "app.use(pinoHttp(\x7b"

def rateLimitImportLine : String := "import rateLimit from \"express-rate-limit\";"

def rateLimitDeclLine : String := "const limiter = rateLimit(\x7b"

def rateLimitUseLine : String := "app.use(\"/api\", limiter); // Apply rate limiting to all API routes"

def authRouterImportLine : String := "import authRouter from \"#routes/auth.routes.js\";"

def authRouterMountLine : String := "app.use(\"/api/v1/auth\", authRouter);"

/-- Segment-level presence of every optional import and of its usage
block, for all feature combinations. -/
lemma appSeg_mem_flags :
    ∀ (m c h cp ph rl de pr ia : Bool),
      (importCors ∈ renderAppJs ⟨m, c, h, cp, ph, rl, de, pr⟩ ia ↔ c = true) ∧
      (corsBlock ∈ renderAppJs ⟨m, c, h, cp, ph, rl, de, pr⟩ ia ↔ c = true) ∧
      (importHelmet ∈ renderAppJs ⟨m, c, h, cp, ph, rl, de, pr⟩ ia ↔ h = true) ∧
      (useHelmet ∈ renderAppJs ⟨m, c, h, cp, ph, rl, de, pr⟩ ia ↔ h = true) ∧
      (importCookieParser ∈ renderAppJs ⟨m, c, h, cp, ph, rl, de, pr⟩ ia ↔ cp = true) ∧
      (useCookieParser ∈ renderAppJs ⟨m, c, h, cp, ph, rl, de, pr⟩ ia ↔ cp = true) ∧
      (importPinoHttp ∈ renderAppJs ⟨m, c, h, cp, ph, rl, de, pr⟩ ia ↔ ph = true) ∧
      (loggingBlock ∈ renderAppJs ⟨m, c, h, cp, ph, rl, de, pr⟩ ia ↔ ph = true) ∧
      (importRateLimit ∈ renderAppJs ⟨m, c, h, cp, ph, rl, de, pr⟩ ia ↔ rl = true) ∧
      (rateLimitBlock ∈ renderAppJs ⟨m, c, h, cp, ph, rl, de, pr⟩ ia ↔ rl = true) ∧
      (importAuthRouter ∈ renderAppJs ⟨m, c, h, cp, ph, rl, de, pr⟩ ia ↔ ia = true) ∧
      (mountAuthRouter ∈ renderAppJs ⟨m, c, h, cp, ph, rl, de, pr⟩ ia ↔ ia = true) := by
  decide

/-- C1: for every combination of the eight togglable features (and the
auth toggle), the rendered composition-root text contains the import line
of an optional middleware if and only if that feature's flag is true, and
the middleware's usage block is present if and only if its import line is
(so no import is left unused and no surviving usage lacks its import). -/
theorem C1_conditional_imports_consistent :
    ∀ (m c h cp ph rl de pr ia : Bool),
      (corsImportLine ∈ appLines ⟨m, c, h, cp, ph, rl, de, pr⟩ ia ↔ c = true) ∧
      (corsUseLine ∈ appLines ⟨m, c, h, cp, ph, rl, de, pr⟩ ia ↔ c = true) ∧
      (helmetImportLine ∈ appLines ⟨m, c, h, cp, ph, rl, de, pr⟩ ia ↔ h = true) ∧
      (helmetUseLine ∈ appLines ⟨m, c, h, cp, ph, rl, de, pr⟩ ia ↔ h = true) ∧
      (cookieParserImportLine ∈ appLines ⟨m, c, h, cp, ph, rl, de, pr⟩ ia ↔ cp = true) ∧
      (cookieParserUseLine ∈ appLines ⟨m, c, h, cp, ph, rl, de, pr⟩ ia ↔ cp = true) ∧
      (pinoHttpImportLine ∈ appLines ⟨m, c, h, cp, ph, rl, de, pr⟩ ia ↔ ph = true) ∧
      (pinoHttpUseLine ∈ appLines ⟨m, c, h, cp, ph, rl, de, pr⟩ ia ↔ ph = true) ∧
      (rateLimitImportLine ∈ appLines ⟨m, c, h, cp, ph, rl, de, pr⟩ ia ↔ rl = true) ∧
      (rateLimitDeclLine ∈ appLines ⟨m, c, h, cp, ph, rl, de, pr⟩ ia ↔ rl = true) ∧
      (rateLimitUseLine ∈ appLines ⟨m, c, h, cp, ph, rl, de, pr⟩ ia ↔ rl = true) ∧
      (authRouterImportLine ∈ appLines ⟨m, c, h, cp, ph, rl, de, pr⟩ ia ↔ ia = true) ∧
      (authRouterMountLine ∈ appLines ⟨m, c, h, cp, ph, rl, de, pr⟩ ia ↔ ia = true) := by
  intro m c h cp ph rl de pr ia
  obtain ⟨h1, h2, h3, h4, h5, h6, h7, h8, h9, h10, h11, h12⟩ :=
    appSeg_mem_flags m c h cp ph rl de pr ia
  exact ⟨(line_home corsImportLine importCors (by decide) _ _).trans h1,
    (line_home corsUseLine corsBlock (by decide) _ _).trans h2,
    (line_home helmetImportLine importHelmet (by decide) _ _).trans h3,
    (line_home helmetUseLine useHelmet (by decide) _ _).trans h4,
    (line_home cookieParserImportLine importCookieParser (by decide) _ _).trans h5,
    (line_home cookieParserUseLine useCookieParser (by decide) _ _).trans h6,
    (line_home pinoHttpImportLine importPinoHttp (by decide) _ _).trans h7,
    (line_home pinoHttpUseLine loggingBlock (by decide) _ _).trans h8,
    (line_home rateLimitImportLine importRateLimit (by decide) _ _).trans h9,
    (line_home rateLimitDeclLine rateLimitBlock (by decide) _ _).trans h10,
    (line_home rateLimitUseLine rateLimitBlock (by decide) _ _).trans h10,
    (line_home authRouterImportLine importAuthRouter (by decide) _ _).trans h11,
    (line_home authRouterMountLine mountAuthRouter (by decide) _ _).trans h12⟩

/-- The segments of the composition root that register middleware or
routers on the application object (`app.use(...)` blocks). -/
def isRegistration : AppSeg → Bool
  | useHelmet => true
  | rateLimitBlock => true
  | loggingBlock => true
  | corsBlock => true
  | jsonParser => true
  | urlencodedParser => true
  | staticFiles => true
  | useCookieParser => true
  | mountAuthRouter => true
  | mountHealthcheck => true
  | useErrorHandler => true
  | _ => false

/-- The fixed total order of the registrations in the template (with the
auth mount at the position where `init` inserts it). -/
def registrationOrder : List AppSeg :=
  [useHelmet, rateLimitBlock, loggingBlock, corsBlock, jsonParser,
   urlencodedParser, staticFiles, useCookieParser, mountAuthRouter,
   mountHealthcheck, useErrorHandler]

/-- Boolean subsequence test: `subseqOf l₁ l₂` holds when `l₁` appears in
`l₂` in order (not necessarily contiguously). -/
def subseqOf (l₁ l₂ : List AppSeg) : Bool :=
  match l₁, l₂ with
  | [], _ => true
  | _ :: _, [] => false
  | a :: as, b :: bs => if a == b then subseqOf as bs else subseqOf (a :: as) bs

/-- C2: in every configuration the registrations present in the rendered
composition root form a subsequence of the fixed total order
secure-headers, rate-limiter, request-logger, cross-origin, JSON parser,
URL-encoded parser, static files, cookie-parser, router mounts, error
handler; the error handler is present unconditionally and is always the
last registration; and the two body parsers carry the fixed 16kb payload
ceiling.  Toggling features therefore changes only presence, never the
relative order of the remaining registrations. -/
theorem C2_registration_order_fixed :
    ∀ (m c h cp ph rl de pr ia : Bool),
      subseqOf ((renderAppJs ⟨m, c, h, cp, ph, rl, de, pr⟩ ia).filter isRegistration)
        registrationOrder = true ∧
      ((renderAppJs ⟨m, c, h, cp, ph, rl, de, pr⟩ ia).filter isRegistration).getLast?
        = some useErrorHandler ∧
      useErrorHandler ∈ renderAppJs ⟨m, c, h, cp, ph, rl, de, pr⟩ ia ∧
      jsonParser ∈ renderAppJs ⟨m, c, h, cp, ph, rl, de, pr⟩ ia ∧
      urlencodedParser ∈ renderAppJs ⟨m, c, h, cp, ph, rl, de, pr⟩ ia ∧
      appSegLines jsonParser = ["app.use(express.json(\x7b limit: \"16kb\" \x7d));"] ∧
      appSegLines urlencodedParser
        = ["app.use(express.urlencoded(\x7b extended: true, limit: \"16kb\" \x7d));"] := by
  decide

/-- Segments of the bootstrap template (`src/server.js`, the revision the
patch regexes of `bin/cli.js` lines 228-242 match exactly).  The two
`lazyImport` constructors carry the deferred-import statements that occur
only in an alternative revision of the bootstrap observed in the
repository; the shipped template and the patching never produce them, so
their absence from a rendered bootstrap is expressible. -/
inductive ServerSeg where
  | importDotenv
  | importApp
  | dotenvConfigBlock
  | importConnectDB
  | portDecl
  | connectThenOpen
  | listenIndented
  | catchBlock
  | listenTop
  | unhandledRejection
  | lazyImportApp
  | lazyImportConnectDB
  | blankLine
deriving DecidableEq, Fintype

open ServerSeg

/-- The bootstrap template `src/server.js` as shipped with the generator,
segment by segment, in the exact order of the file (note that the
`connectDB` import line sits textually after the `dotenv.config` call). -/
def serverJsTemplate : List ServerSeg :=
  [importDotenv, importApp, blankLine, dotenvConfigBlock, blankLine,
   importConnectDB, blankLine, portDecl, blankLine, connectThenOpen,
   listenIndented, catchBlock, blankLine, unhandledRejection]

/-- The `server.js` patching pipeline of `init` (`bin/cli.js` lines
226-244): when the persistence feature is off, delete the connector
import, the `.then` opener and the `.catch` block, and replace the
indented listen block with the re-indented top-level listen block; when
environment loading is off, delete the `dotenv` import and the
`dotenv.config` block.  Each step mirrors one `serverJsCode.replace` call
whose regex matches exactly the indicated segment. -/
def patchServerJs (d : Deps) (segs0 : List ServerSeg) : List ServerSeg :=
  let s1 := if d.mongoose then segs0 else
    (segs0.filter (fun s =>
        !(s == importConnectDB || s == connectThenOpen || s == catchBlock))).map
      (fun s => if s == listenIndented then listenTop else s)
  if d.dotenv then s1 else
    s1.filter (fun s => !(s == importDotenv || s == dotenvConfigBlock))

/-- The rendered bootstrap for a configuration. -/
def renderServerJs (d : Deps) : List ServerSeg :=
  patchServerJs d serverJsTemplate

/-- The exact source lines of each bootstrap segment (for the two lazy
imports, the lines of the alternative revision). -/
def serverSegLines : ServerSeg → List String
  | importDotenv => ["import dotenv from \"dotenv\";"]
  | importApp => ["import \x7b app \x7d from \"#app.js\";"]
  | dotenvConfigBlock =>
      ["// Load environment variables from .env file",
       "dotenv.config(\x7b",
       "    path: \x27./.env\x27",
       "\x7d);"]
  | importConnectDB => ["import connectDB from \"#db/index.js\";"]
  | portDecl => ["const PORT = process.env.PORT || 8000;"]
  | connectThenOpen => ["connectDB()", "    .then(() => \x7b"]
  | listenIndented =>
      ["        app.listen(PORT, () => \x7b",
       "            console.log(`Server is running at port : $\x7bPORT\x7d`);",
       "        \x7d);"]
  | catchBlock =>
      ["    \x7d)",
       "    .catch((err) => \x7b",
       "        console.log(\"MONGO db connection failed !!! \", err);",
       "    \x7d);"]
  | listenTop =>
      ["app.listen(PORT, () => \x7b",
       "    console.log(`Server is running at port : $\x7bPORT\x7d`);",
       "\x7d);"]
  | unhandledRejection =>
      ["process.on(\"unhandledRejection\", (err) => \x7b",
       "    console.log(\"UNHANDLED REJECTION! Shutting down...\");",
       "    console.log(err.name, err.message);",
       "    process.exit(1);",
       "\x7d);"]
  | lazyImportApp => ["const \x7b app \x7d = await import(\"#app.js\");"]
  | lazyImportConnectDB =>
      ["const \x7b default: connectDB \x7d = await import(\"#db/index.js\");"]
  | blankLine => [""]

/-- The module specifier of the composition-root import. -/
def appModuleSpec : String := "#app.js"

/-- The module specifier of a static import declaration, when the segment
is one. -/
def importSpecifier : ServerSeg → Option String
  | importDotenv => some "dotenv"
  | importApp => some appModuleSpec
  | importConnectDB => some "#db/index.js"
  | _ => none

/-- Bootstrap segments that are executable statements of the module body
(everything that is neither a static import declaration nor a blank
line; the deferred imports of the alternative revision are statements). -/
def isServerStatement (s : ServerSeg) : Bool :=
  (importSpecifier s).isNone && !(s == blankLine)

/-- An event in the evaluation of the rendered bootstrap module. -/
inductive BootEvent where
  | moduleLoaded (specifier : String)
  | statementRun (s : ServerSeg)
deriving DecidableEq

/-- Evaluation order of the rendered bootstrap under ECMAScript-module
semantics: static `import` declarations are hoisted, so every statically
imported module is fetched and evaluated (in declaration order) before
the first statement of the importing module's body runs; the body's
statements then run in textual order. -/
def evalOrder (segs : List ServerSeg) : List BootEvent :=
  (segs.filterMap (fun s => (importSpecifier s).map BootEvent.moduleLoaded))
    ++ (segs.filter isServerStatement).map BootEvent.statementRun

/-- `e₁` happens strictly before `e₂` in the event list (and `e₂` does
happen). -/
def precedesIn (l : List BootEvent) (e₁ e₂ : BootEvent) : Bool :=
  l.indexOf e₁ < l.indexOf e₂ && l.contains e₂

/-- Log lines the bootstrap can emit while starting up. -/
inductive LogEvent where
  | listeningLog
  | mongoFailLog
deriving DecidableEq

/-- Observable outcome of running the rendered bootstrap.  `exitCode =
none` means the process keeps running (a bound listener keeps the event
loop alive). -/
structure RunResult where
  listenerBound : Bool
  logs : List LogEvent
  viaUnhandledRejection : Bool
  exitCode : Option Nat
deriving DecidableEq

/-- Operational model of the rendered bootstrap, faithful to Node.js
semantics of the rendered text: `connectDB()` yields a promise.  When a
`.catch` continuation is attached (the `catchBlock` segment), a
connection failure is delivered to that handler — the process-level
`unhandledRejection` handler does not fire, because the rejection is
handled — the handler logs the failure, and with no listener bound the
event loop drains, so the process terminates normally with exit status 0.
Only a rejection with no attached handler would reach the
`unhandledRejection` handler, which logs and exits with status 1.  On
connection success the listener inside the `.then` continuation is bound
and keeps the process alive; without any connection code the top-level
listen statement binds the listener directly. -/
def runServer (segs : List ServerSeg) (connectOk : Bool) : RunResult :=
  if connectThenOpen ∈ segs then
    if connectOk then
      { listenerBound := listenIndented ∈ segs
        logs := if listenIndented ∈ segs then [LogEvent.listeningLog] else []
        viaUnhandledRejection := false
        exitCode := none }
    else
      if catchBlock ∈ segs then
        { listenerBound := false
          logs := [LogEvent.mongoFailLog]
          viaUnhandledRejection := false
          exitCode := some 0 }
      else
        { listenerBound := false
          logs := []
          viaUnhandledRejection := unhandledRejection ∈ segs
          exitCode := some 1 }
  else
    { listenerBound := listenTop ∈ segs
      logs := if listenTop ∈ segs then [LogEvent.listeningLog] else []
      viaUnhandledRejection := false
      exitCode := none }

/-- The configuration in which every togglable feature is enabled. -/
def depsAllTrue : Deps :=
  ⟨true, true, true, true, true, true, true, true⟩

/-- The configuration with persistence disabled and every other togglable
feature enabled. -/
def depsNoMongo : Deps :=
  ⟨false, true, true, true, true, true, true, true⟩

/-- C3 counterexample: with persistence enabled (all features on) and the
connection failing, the rendered bootstrap does not exit with non-zero
status via the unhandled-rejection path: the `.catch` continuation
handles the rejection, so the unhandled-rejection handler never fires and
the process terminates normally with exit status 0 after logging the
failure. -/
theorem C3_counterexample :
    ¬ ((runServer (renderServerJs depsAllTrue) false).viaUnhandledRejection = true ∧
       (runServer (renderServerJs depsAllTrue) false).exitCode ≠ some 0) := by
  decide

/-- C3 (amended): for every configuration with persistence enabled, the
rendered bootstrap binds the listener only inside the connection-success
continuation (the listen block sits between the `.then` opener and the
`.catch` block, and no top-level listen statement is present); on
connection failure it logs the failure and does not bind the listener,
but the rejection is handled by the attached `.catch` continuation — not
by the unhandled-rejection handler — so the process terminates normally
with exit status 0. -/
theorem C3_listen_gated_by_connection :
    ∀ (c h cp ph rl de pr : Bool),
      listenTop ∉ renderServerJs ⟨true, c, h, cp, ph, rl, de, pr⟩ ∧
      (renderServerJs ⟨true, c, h, cp, ph, rl, de, pr⟩).filter
          (fun s => s == connectThenOpen || s == listenIndented ||
            s == catchBlock || s == listenTop)
        = [connectThenOpen, listenIndented, catchBlock] ∧
      (runServer (renderServerJs ⟨true, c, h, cp, ph, rl, de, pr⟩) true).listenerBound
        = true ∧
      (runServer (renderServerJs ⟨true, c, h, cp, ph, rl, de, pr⟩) false).listenerBound
        = false ∧
      (runServer (renderServerJs ⟨true, c, h, cp, ph, rl, de, pr⟩) false).logs
        = [LogEvent.mongoFailLog] ∧
      (runServer (renderServerJs ⟨true, c, h, cp, ph, rl, de, pr⟩) false).viaUnhandledRejection
        = false ∧
      (runServer (renderServerJs ⟨true, c, h, cp, ph, rl, de, pr⟩) false).exitCode
        = some 0 := by
  decide

/-- Assets of the boilerplate `src` tree that the generator copies into
the target project.  Modelled from the spec: the repository snapshot does
not include the full boilerplate tree, only some of its files; per the
spec's produced-filesystem layout and its grouping of the persistence
layer, the `db` directory holds the persistence connector
(`db/index.js`) together with the example mongoose schema model, the
persistence-specific assets of the boilerplate. -/
inductive Asset where
  | appJsFile
  | serverJsFile
  | dbIndex
  | exampleModel
  | errorHandlerMiddleware
  | healthcheckRoutes
  | healthcheckController
  | apiErrorUtil
  | apiResponseUtil
  | asyncHandlerUtil
deriving DecidableEq, Fintype

/-- Whether an asset lives inside the `src/db` directory that
`init` deletes with `fs.rmSync(dbDir, ...)` when persistence is off
(`bin/cli.js` lines 235-236). -/
def isDbAsset : Asset → Bool
  | Asset.dbIndex => true
  | Asset.exampleModel => true
  | _ => false

/-- The boilerplate `src` tree copied by `copyRecursiveSync`. -/
def boilerplateSrcTree : List Asset :=
  [Asset.appJsFile, Asset.serverJsFile, Asset.dbIndex, Asset.exampleModel,
   Asset.errorHandlerMiddleware, Asset.healthcheckRoutes,
   Asset.healthcheckController, Asset.apiErrorUtil, Asset.apiResponseUtil,
   Asset.asyncHandlerUtil]

/-- The copied project `src` tree after `init`'s conditional removal: the
whole boilerplate tree, minus the `db` directory when persistence is off
(`bin/cli.js` lines 228-237). -/
def projectSrcTree (d : Deps) : List Asset :=
  if d.mongoose then boilerplateSrcTree
  else boilerplateSrcTree.filter (fun a => !(isDbAsset a))

/-- C4: for every configuration with persistence disabled, the rendered
bootstrap contains no database-connection code (no connector import —
static or deferred — no `.then` opener, no `.catch` block, no listen
block nested in a continuation), binds the listener with the
unconditional top-level listen statement (the run model binds the
listener regardless of any connection outcome), and the persistence
assets — the `db` directory with the connector and the example mongoose
schema model — are excluded from the copied project tree. -/
theorem C4_no_persistence_no_connection_code :
    ∀ (c h cp ph rl de pr : Bool) (connectOk : Bool),
      importConnectDB ∉ renderServerJs ⟨false, c, h, cp, ph, rl, de, pr⟩ ∧
      lazyImportConnectDB ∉ renderServerJs ⟨false, c, h, cp, ph, rl, de, pr⟩ ∧
      connectThenOpen ∉ renderServerJs ⟨false, c, h, cp, ph, rl, de, pr⟩ ∧
      catchBlock ∉ renderServerJs ⟨false, c, h, cp, ph, rl, de, pr⟩ ∧
      listenIndented ∉ renderServerJs ⟨false, c, h, cp, ph, rl, de, pr⟩ ∧
      listenTop ∈ renderServerJs ⟨false, c, h, cp, ph, rl, de, pr⟩ ∧
      (runServer (renderServerJs ⟨false, c, h, cp, ph, rl, de, pr⟩) connectOk).listenerBound
        = true ∧
      Asset.dbIndex ∉ projectSrcTree ⟨false, c, h, cp, ph, rl, de, pr⟩ ∧
      Asset.exampleModel ∉ projectSrcTree ⟨false, c, h, cp, ph, rl, de, pr⟩ := by
  decide

/-- C5 counterexample: in the all-features configuration the claim fails
on the rendered bootstrap: environment loading does not execute before
the composition root's module is resolved — the composition root is
imported with a hoisted static `import`, which is evaluated before the
`dotenv.config` statement runs — and no deferred import of the
composition root is present. -/
theorem C5_counterexample :
    ¬ (precedesIn (evalOrder (renderServerJs depsAllTrue))
          (BootEvent.statementRun dotenvConfigBlock)
          (BootEvent.moduleLoaded appModuleSpec) = true ∧
       lazyImportApp ∈ renderServerJs depsAllTrue) := by
  decide

/-- C5 (amended): for every configuration with environment loading
enabled, the `dotenv.config` block (with its explanatory comment) is
present and is the textually first executable statement of the rendered
bootstrap, but the composition root is imported with a static — not
deferred — import; under ECMAScript-module hoisting the composition
root's module is therefore loaded and evaluated before environment
loading executes. -/
theorem C5_env_loading_after_hoisted_imports :
    ∀ (m c h cp ph rl pr : Bool),
      dotenvConfigBlock ∈ renderServerJs ⟨m, c, h, cp, ph, rl, true, pr⟩ ∧
      ((renderServerJs ⟨m, c, h, cp, ph, rl, true, pr⟩).filter isServerStatement).head?
        = some dotenvConfigBlock ∧
      importApp ∈ renderServerJs ⟨m, c, h, cp, ph, rl, true, pr⟩ ∧
      lazyImportApp ∉ renderServerJs ⟨m, c, h, cp, ph, rl, true, pr⟩ ∧
      precedesIn (evalOrder (renderServerJs ⟨m, c, h, cp, ph, rl, true, pr⟩))
          (BootEvent.moduleLoaded appModuleSpec)
          (BootEvent.statementRun dotenvConfigBlock) = true ∧
      "// Load environment variables from .env file"
        ∈ serverSegLines dotenvConfigBlock := by
  decide

/-- The transport object the generated probe returns:
`\x7b target: \x27pino-pretty\x27, options: \x7b colorize: true \x7d \x7d`. -/
structure TransportConfig where
  target : String
  colorize : Bool
deriving DecidableEq

def prettyTransport : TransportConfig :=
  { target := "pino-pretty", colorize := true }

/-- Result of evaluating the generated transport-probe expression:
the value of the `transport` property (`none` models JavaScript
`undefined`) and whether a promise rejection escaped with no handler
attached. -/
structure ProbeOutcome where
  transport : Option TransportConfig
  unhandledRejectionRaised : Bool
deriving DecidableEq

/-- Shallow model of the transport-probe expression in the `app.js`
template (the `transport:` property of the `pinoHttp` options): when
`NODE_ENV === "development"`, an immediately-invoked function runs
`import("pino-pretty")` inside `try/catch` and returns the pretty
transport object, with `catch` returning `undefined`.  JavaScript dynamic
`import()` never throws synchronously — for a missing package it returns
a promise that rejects asynchronously — so the `catch` arm, which
intercepts only synchronous throws, is unreachable: the function always
returns the transport object, and when the package is unavailable the
rejected promise (to which no handler is ever attached) surfaces as an
unhandled promise rejection.  Outside development mode the conditional
yields `undefined` without probing. -/
def transportProbe (nodeEnvDevelopment : Bool) (pinoPrettyAvailable : Bool) :
    ProbeOutcome :=
  if nodeEnvDevelopment then
    { transport := some prettyTransport
      unhandledRejectionRaised := !pinoPrettyAvailable }
  else
    { transport := none, unhandledRejectionRaised := false }

/-- C6: evaluating the probe model at the claim's scenario.  The probe
runs only in development mode (outside it the transport is `undefined`
with no rejection), but in development with the pretty-printing package
unavailable the probe does not fall back to `undefined`: it yields the
pino-pretty transport object and an unhandled promise rejection escapes —
the dynamic `import` in the template's `try` block (present in the
rendered text whenever request logging is enabled) cannot be caught by
the surrounding `try/catch`. -/
theorem C6_probe_no_silent_fallback :
    transportProbe true false
      = { transport := some prettyTransport, unhandledRejectionRaised := true } ∧
    (transportProbe true false).transport ≠ none ∧
    (∀ avail : Bool, transportProbe false avail
      = { transport := none, unhandledRejectionRaised := false }) ∧
    (∀ avail : Bool, (transportProbe true avail).transport = some prettyTransport) ∧
    loggingBlock ∈ renderAppJs depsAllTrue true ∧
    "            import(\"pino-pretty\");" ∈ appSegLines loggingBlock := by
  decide

/-- The npm packages the generator can install (their npm names are given
by `pkgName`). -/
inductive Pkg where
  | express
  | mongoose
  | cors
  | helmet
  | cookieParser
  | pinoHttp
  | expressRateLimit
  | dotenv
  | prettier
  | pino
  | jsonwebtoken
  | bcryptjs
  | nodemon
  | pinoPretty
  | jest
  | supertest
deriving DecidableEq, Fintype

/-- The npm name of each package (the string keys and pushed names of
`bin/cli.js`). -/
def pkgName : Pkg → String
  | Pkg.express => "express"
  | Pkg.mongoose => "mongoose"
  | Pkg.cors => "cors"
  | Pkg.helmet => "helmet"
  | Pkg.cookieParser => "cookie-parser"
  | Pkg.pinoHttp => "pino-http"
  | Pkg.expressRateLimit => "express-rate-limit"
  | Pkg.dotenv => "dotenv"
  | Pkg.prettier => "prettier"
  | Pkg.pino => "pino"
  | Pkg.jsonwebtoken => "jsonwebtoken"
  | Pkg.bcryptjs => "bcryptjs"
  | Pkg.nodemon => "nodemon"
  | Pkg.pinoPretty => "pino-pretty"
  | Pkg.jest => "jest"
  | Pkg.supertest => "supertest"

/-- `Object.keys(deps)` in the key order of the `deps` object literal. -/
def depsObjectKeys : List Pkg :=
  [Pkg.express, Pkg.mongoose, Pkg.cors, Pkg.helmet, Pkg.cookieParser,
   Pkg.pinoHttp, Pkg.expressRateLimit, Pkg.dotenv, Pkg.prettier]

/-- The boolean value stored under each key of the `deps` object
(`express` is the literal `true`; keys not in the object are `false`). -/
def depEnabled (d : Deps) : Pkg → Bool
  | Pkg.express => true
  | Pkg.mongoose => d.mongoose
  | Pkg.cors => d.cors
  | Pkg.helmet => d.helmet
  | Pkg.cookieParser => d.cookieParser
  | Pkg.pinoHttp => d.pinoHttp
  | Pkg.expressRateLimit => d.expressRateLimit
  | Pkg.dotenv => d.dotenv
  | Pkg.prettier => d.prettier
  | _ => false

/-- `dependenciesToInstall` of `bin/cli.js` lines 282-288: the enabled
keys of `deps` except `prettier`, then `pino` when `pino-http` is
enabled, then `jsonwebtoken` and `bcryptjs` when auth boilerplate is
selected. -/
def dependenciesToInstall (d : Deps) (initAuth : Bool) : List Pkg :=
  (depsObjectKeys.filter (fun k => depEnabled d k && !(k == Pkg.prettier)))
    ++ (if d.pinoHttp then [Pkg.pino] else [])
    ++ (if initAuth then [Pkg.jsonwebtoken, Pkg.bcryptjs] else [])

/-- `installPinoPretty` as `init` resolves it: it starts `false` and the
pino-pretty question is asked only when `pino-http` was selected. -/
def resolveInstallPinoPretty (pinoHttpOn answer : Bool) : Bool :=
  pinoHttpOn && answer

/-- `devDependenciesToInstall` of `bin/cli.js` lines 290-295: `nodemon`
always, `prettier` when the formatter is selected, `pino-pretty` when its
resolved flag is set, and `jest` plus `supertest` when tests are
selected. -/
def devDependenciesToInstall (d : Deps) (installPinoPretty initTests : Bool) :
    List Pkg :=
  [Pkg.nodemon]
    ++ (if d.prettier then [Pkg.prettier] else [])
    ++ (if installPinoPretty then [Pkg.pinoPretty] else [])
    ++ (if initTests then [Pkg.jest, Pkg.supertest] else [])

/-- The `dependencies` object written into the manifest (`bin/cli.js`
lines 307-309): every name mapped to the specifier `latest`. -/
def latestDeps (d : Deps) (initAuth : Bool) : List (Pkg × String) :=
  (dependenciesToInstall d initAuth).map (fun p => (p, "latest"))

/-- The `devDependencies` object written into the manifest (`bin/cli.js`
lines 311-313). -/
def latestDevDeps (d : Deps) (installPinoPretty initTests : Bool) :
    List (Pkg × String) :=
  (devDependenciesToInstall d installPinoPretty initTests).map
    (fun p => (p, "latest"))

/-- C7: the manifest's runtime dependency set is exactly the backing
package of every enabled feature except the formatter, plus the base
framework, plus `pino` when request logging is on, plus the token-signing
and hashing packages when auth boilerplate is selected; the development
set is exactly `nodemon`, the formatter when selected, the pretty
transport when its resolved flag is set, and the test-runner packages
when tests are selected; and every entry of both manifest objects carries
the version specifier `latest`. -/
theorem C7_manifest_dependency_sets :
    (∀ (p : Pkg) (m c h cp ph rl de pr ia : Bool),
      (dependenciesToInstall ⟨m, c, h, cp, ph, rl, de, pr⟩ ia).contains p =
        (p == Pkg.express || (p == Pkg.mongoose && m) ||
         (p == Pkg.cors && c) || (p == Pkg.helmet && h) ||
         (p == Pkg.cookieParser && cp) || (p == Pkg.pinoHttp && ph) ||
         (p == Pkg.expressRateLimit && rl) || (p == Pkg.dotenv && de) ||
         (p == Pkg.pino && ph) || (p == Pkg.jsonwebtoken && ia) ||
         (p == Pkg.bcryptjs && ia))) ∧
    (∀ (p : Pkg) (m c h cp ph rl de pr ans it : Bool),
      (devDependenciesToInstall ⟨m, c, h, cp, ph, rl, de, pr⟩
            (resolveInstallPinoPretty ph ans) it).contains p =
        (p == Pkg.nodemon || (p == Pkg.prettier && pr) ||
         (p == Pkg.pinoPretty && (ph && ans)) ||
         (p == Pkg.jest && it) || (p == Pkg.supertest && it))) ∧
    (∀ (m c h cp ph rl de pr ia : Bool),
      (latestDeps ⟨m, c, h, cp, ph, rl, de, pr⟩ ia).all
        (fun e => e.2 == "latest") = true) ∧
    (∀ (m c h cp ph rl de pr ipp it : Bool),
      (latestDevDeps ⟨m, c, h, cp, ph, rl, de, pr⟩ ipp it).all
        (fun e => e.2 == "latest") = true) := by
  refine ⟨by decide, by decide, by decide, by decide⟩

/-- The health-check controller asset the generator copies verbatim
(`copyRecursiveSync`); its exact source lines. -/
def healthcheckControllerLines : List String :=
  ["import \x7b ApiError \x7d from \"#utils/ApiError.js\";",
   "import \x7b ApiResponse \x7d from \"#utils/ApiResponse.js\";",
   "import \x7b asyncHandler \x7d from \"#utils/asyncHandler.js\";",
   "",
   "const healthcheck = asyncHandler(async (req, res) => \x7b",
   "    // Basic health check",
   "    return res",
   "        .status(200)",
   "        .json(new ApiResponse(200, \x7b status: \"OK\", timestamp: Date.now() \x7d, \"App is running smoothly\"));",
   "\x7d);",
   "",
   "const triggerError = asyncHandler(async (req, res) => \x7b",
   "    // Dummy route to test the global error handler",
   "    throw new ApiError(400, \"This is a custom error thrown for testing purposes.\");",
   "\x7d);",
   "",
   "export \x7b healthcheck, triggerError \x7d;"]

/-- The line of the health-check handler body that embeds the timestamp
call as literal text of the generated program. -/
def timestampLine : String :=
  "        .json(new ApiResponse(200, \x7b status: \"OK\", timestamp: Date.now() \x7d, \"App is running smoothly\"));"

def isPrefixChars : List Char → List Char → Bool
  | [], _ => true
  | _ :: _, [] => false
  | a :: as, b :: bs => a == b && isPrefixChars as bs

def containsChars (pat : List Char) : List Char → Bool
  | [] => isPrefixChars pat []
  | c :: cs => isPrefixChars pat (c :: cs) || containsChars pat cs

/-- The characters of a clock read, `Date.now(`. -/
def dateNowPat : List Char :=
  ['D', 'a', 't', 'e', '.', 'n', 'o', 'w', '(']

/-- Whether a source line mentions the clock read `Date.now(`. -/
def lineMentionsDateNow (l : String) : Bool :=
  containsChars dateNowPat l.toList

/-- The ambient process state a generation step could observe: wall clock
and randomness.  The rendering path of `init` never reads either. -/
structure GenEnv where
  clockMillis : Nat
  randomSeed : Nat
deriving DecidableEq

/-- Everything `init` derives from the configuration: the two rendered
source files, the copied tree, the manifest dependency objects, and the
verbatim-copied health-check controller. -/
structure GeneratedProject where
  appSegs : List AppSeg
  serverSegs : List ServerSeg
  srcTree : List Asset
  dependencies : List (Pkg × String)
  devDependencies : List (Pkg × String)
  healthcheckControllerText : List String
deriving DecidableEq

/-- The generation step of `init` as a function of the configuration and
the ambient process state: rendering consults only the configuration (no
step of `init`'s output computation reads the clock or randomness, so
`env` is not consulted). -/
def generateProject (d : Deps) (initAuth installPinoPretty initTests : Bool)
    (_env : GenEnv) : GeneratedProject :=
  { appSegs := renderAppJs d initAuth
    serverSegs := renderServerJs d
    srcTree := projectSrcTree d
    dependencies := latestDeps d initAuth
    devDependencies := latestDevDeps d installPinoPretty initTests
    healthcheckControllerText := healthcheckControllerLines }

/-- C8: generation is deterministic — for any configuration, two
generation runs under arbitrary (and arbitrarily different) ambient clock
and randomness states produce identical output; no line of the rendered
composition root or bootstrap mentions a clock read, and the only
timestamp in the generated project is the `Date.now()` occurring as
literal text on exactly one line of the copied health-check handler
body. -/
theorem C8_generation_deterministic :
    ∀ (m c h cp ph rl de pr ia ipp it : Bool) (e₁ e₂ : GenEnv),
      generateProject ⟨m, c, h, cp, ph, rl, de, pr⟩ ia ipp it e₁
        = generateProject ⟨m, c, h, cp, ph, rl, de, pr⟩ ia ipp it e₂ ∧
      (∀ s : AppSeg, (appSegLines s).all (fun l => !lineMentionsDateNow l) = true) ∧
      (∀ s : ServerSeg, (serverSegLines s).all (fun l => !lineMentionsDateNow l) = true) ∧
      (healthcheckControllerLines.filter lineMentionsDateNow).length = 1 ∧
      timestampLine ∈ healthcheckControllerLines ∧
      lineMentionsDateNow timestampLine = true := by
  intro m c h cp ph rl de pr ia ipp it e₁ e₂
  exact ⟨rfl, by decide, by decide, by decide, by decide, by decide⟩

/-- Split a character sequence into lines: every newline character ends
the current line (the result is never empty; a trailing newline yields a
final empty line). -/
def splitLines : List Char → List (List Char)
  | [] => [[]]
  | c :: cs =>
      if c = '\n' then [] :: splitLines cs
      else
        match splitLines cs with
        | [] => [[c]]
        | l :: ls => (c :: l) :: ls

lemma splitLines_ne_nil (cs : List Char) : splitLines cs ≠ [] := by
  cases cs with
  | nil => simp [splitLines]
  | cons c cs =>
      simp only [splitLines]
      split
      · simp
      · split <;> simp

lemma splitLines_append (a b : List Char) :
    splitLines (a ++ '\n' :: b) = splitLines a ++ splitLines b := by
  induction a with
  | nil => simp [splitLines]
  | cons c a ih =>
      simp only [List.cons_append, splitLines, List.append_eq]
      rw [ih]
      by_cases hc : c = '\n'
      · simp [hc]
      · simp only [if_neg hc]
        cases h : splitLines a with
        | nil => exact absurd h (splitLines_ne_nil a)
        | cons l ls => simp

/-- The non-empty lines of a character sequence (the key-carrying lines
of an env file: blank separator lines are not counted). -/
def nonEmptyLines (cs : List Char) : List (List Char) :=
  (splitLines cs).filter (fun l => !l.isEmpty)

lemma nonEmptyLines_append (a b : List Char) :
    nonEmptyLines (a ++ '\n' :: b) = nonEmptyLines a ++ nonEmptyLines b := by
  unfold nonEmptyLines
  rw [splitLines_append, List.filter_append]

/-- The signing-secret line appended for auth boilerplate. -/
def jwtSecretLine : List Char :=
  ("JWT_SECRET=supersecretjwtkey123").toList

/-- The hash cost-factor line appended for auth boilerplate. -/
def bcryptSaltLine : List Char :=
  ("BCRYPT_SALT=10").toList

/-- The exact string `init` appends to `.env` and `.env.example` when
auth boilerplate is selected (`bin/cli.js` lines 151-152): a leading
newline separator, then the two key lines each terminated by a
newline. -/
def authEnvAppend : List Char :=
  '\n' :: (jwtSecretLine ++ '\n' :: (bcryptSaltLine ++ '\n' :: []))

/-- `fs.appendFileSync` of the auth keys onto an env file's contents. -/
def appendAuthEnv (base : List Char) : List Char :=
  base ++ authEnvAppend

/-- The pair of generated env files (`.env`, `.env.example`) after the
conditional append of `init`: both start from the same copied stub and
both receive the same appended text when auth boilerplate is selected. -/
def envFilesAfterAuth (initAuth : Bool) (base : List Char) :
    List Char × List Char :=
  if initAuth then (appendAuthEnv base, appendAuthEnv base) else (base, base)

/-- C9: whatever the copied env stub's contents, selecting auth
boilerplate appends exactly two key-carrying lines — the signing secret
and the hash cost factor, in that order and nothing more — to each of the
two env files, both files receive identical contents, and without auth
boilerplate both files keep the stub unchanged. -/
theorem C9_auth_env_appends_two_keys :
    ∀ base : List Char,
      nonEmptyLines (appendAuthEnv base)
        = nonEmptyLines base ++ [jwtSecretLine, bcryptSaltLine] ∧
      (envFilesAfterAuth true base).1 = (envFilesAfterAuth true base).2 ∧
      envFilesAfterAuth false base = (base, base) := by
  intro base
  refine ⟨?_, rfl, rfl⟩
  have h2 : nonEmptyLines (jwtSecretLine ++ '\n' :: (bcryptSaltLine ++ '\n' :: []))
      = [jwtSecretLine, bcryptSaltLine] := by decide
  calc nonEmptyLines (appendAuthEnv base)
      = nonEmptyLines (base ++ '\n' :: (jwtSecretLine ++ '\n' :: (bcryptSaltLine ++ '\n' :: []))) := rfl
    _ = nonEmptyLines base
          ++ nonEmptyLines (jwtSecretLine ++ '\n' :: (bcryptSaltLine ++ '\n' :: [])) :=
        nonEmptyLines_append base _
    _ = nonEmptyLines base ++ [jwtSecretLine, bcryptSaltLine] := by rw [h2]

/-- Modelled from the spec: `src/utils/ApiError.js` is not among the
repository's sources (only its importers are); the spec and README
describe it as the fixed error-wrapper type that stores its constructor
arguments — status code, message, error list and (when given) the
original stack trace. -/
structure ApiError where
  statusCode : Nat
  message : String
  errors : List String
  stack : Option String
deriving DecidableEq

/-- A JavaScript error value that is not an `ApiError`: each field may be
absent (`none` models a missing property / `undefined`). -/
structure PlainError where
  statusCode : Option Nat
  message : Option String
  errors : Option (List String)
  stack : Option String
deriving DecidableEq

/-- An error value passed to the generated global error-handler
middleware: either already an `ApiError` or any other error object. -/
inductive ErrValue where
  | api (e : ApiError)
  | plain (e : PlainError)
deriving DecidableEq

def internalServerErrorMsg : String := "Internal Server Error"

/-- The conversion step of `errorHandler`
(`src/middlewares/errorHandler.middleware.js` lines 14-24): an `ApiError`
passes through; any other error is wrapped in a new `ApiError` whose
status code is `error.statusCode ? error.statusCode : 500` (JavaScript
truthiness: the number `0` is falsy, as is a missing field), whose
message is `error.message || "Internal Server Error"` (the empty string
is falsy), whose error list is `error?.errors || []` (an array is always
truthy, so only a missing field falls back to `[]`), and whose stack is
the input's own `err.stack`. -/
def toApiError : ErrValue → ApiError
  | ErrValue.api e => e
  | ErrValue.plain e =>
      { statusCode :=
          match e.statusCode with
          | some n => if n = 0 then 500 else n
          | none => 500
        message :=
          match e.message with
          | some m => if m = "" then internalServerErrorMsg else m
          | none => internalServerErrorMsg
        errors := e.errors.getD []
        stack := e.stack }

/-- The response the handler sends: HTTP status plus the JSON body built
from the spread of the `ApiError` (its own enumerable fields
`statusCode`, `errors`, the explicit `message`) and, only in development
mode, a `stack` key (`bodyStack = none` models the key being absent; the
`stack` property of an `Error` instance is non-enumerable, so the spread
itself never leaks it outside development). -/
structure ErrorResponse where
  httpStatus : Nat
  bodyStatusCode : Nat
  bodyMessage : String
  bodyErrors : List String
  bodyStack : Option (Option String)
deriving DecidableEq

/-- The generated global error-handler middleware
(`src/middlewares/errorHandler.middleware.js`): convert the error with
`toApiError`, then respond with `res.status(error.statusCode)` and the
body `\x7b ...error, message: error.message, ...(development ? \x7b
stack: error.stack \x7d : \x7b\x7d) \x7d`. -/
def errorHandler (development : Bool) (err : ErrValue) : ErrorResponse :=
  let error := toApiError err
  { httpStatus := error.statusCode
    bodyStatusCode := error.statusCode
    bodyMessage := error.message
    bodyErrors := error.errors
    bodyStack := if development then some error.stack else none }

/-- C10 counterexample: the claim's conversion rule fails on JavaScript
falsy-but-present fields.  An error whose `statusCode` field is present
with value `0` is converted to status `500`, not to the present value
`0`; and an error whose `message` field is present but empty yields the
fallback message, not the present (empty) message. -/
theorem C10_counterexample :
    (ErrValue.plain ⟨some 0, some "boom", none, some "trace0"⟩
        = ErrValue.plain ⟨some 0, some "boom", none, some "trace0"⟩) ∧
    (errorHandler false (ErrValue.plain ⟨some 0, some "boom", none, some "trace0"⟩)).httpStatus
      = 500 ∧
    (errorHandler false (ErrValue.plain ⟨some 0, some "boom", none, some "trace0"⟩)).httpStatus
      ≠ 0 ∧
    (errorHandler false (ErrValue.plain ⟨some 404, some "", none, none⟩)).bodyMessage
      = internalServerErrorMsg ∧
    (errorHandler false (ErrValue.plain ⟨some 404, some "", none, none⟩)).bodyMessage
      ≠ "" := by
  decide

/-- C10 (amended): every response is produced from the converted
`ApiError`: the HTTP status always equals the body's status code (the
resulting `ApiError`'s `statusCode`); the `stack` key is present in the
body exactly in development mode and then carries the converted error's
stack; a non-`ApiError` input keeps its own stack; its status code is
used when present and truthy (non-zero), with `500` otherwise; its
message is used when present and non-empty, with `"Internal Server
Error"` otherwise; and an `ApiError` input passes through unchanged. -/
theorem C10_error_handler_response (development : Bool) (e : PlainError)
    (n : Nat) (msg : String) :
    ((errorHandler development (ErrValue.plain e)).httpStatus
        = (errorHandler development (ErrValue.plain e)).bodyStatusCode) ∧
    ((errorHandler development (ErrValue.plain e)).bodyStack
        = if development then some (toApiError (ErrValue.plain e)).stack else none) ∧
    ((toApiError (ErrValue.plain e)).stack = e.stack) ∧
    (e.statusCode = some n → n ≠ 0 →
      (errorHandler development (ErrValue.plain e)).httpStatus = n) ∧
    (e.statusCode = none →
      (errorHandler development (ErrValue.plain e)).httpStatus = 500) ∧
    (e.statusCode = some 0 →
      (errorHandler development (ErrValue.plain e)).httpStatus = 500) ∧
    (e.message = some msg → msg ≠ "" →
      (errorHandler development (ErrValue.plain e)).bodyMessage = msg) ∧
    (e.message = none →
      (errorHandler development (ErrValue.plain e)).bodyMessage
        = internalServerErrorMsg) ∧
    (∀ a : ApiError,
      (errorHandler development (ErrValue.api a)).httpStatus = a.statusCode ∧
      (errorHandler development (ErrValue.api a)).bodyMessage = a.message ∧
      (errorHandler development (ErrValue.api a)).bodyStack
        = if development then some a.stack else none) := by
  refine ⟨rfl, rfl, rfl, ?_, ?_, ?_, ?_, ?_, fun a => ⟨rfl, rfl, rfl⟩⟩
  · intro h hn
    simp [errorHandler, toApiError, h, hn]
  · intro h
    simp [errorHandler, toApiError, h]
  · intro h
    simp [errorHandler, toApiError, h]
  · intro h hm
    simp [errorHandler, toApiError, h, hm]
  · intro h
    simp [errorHandler, toApiError, h]

/-- Witness for the amended C10 at a concrete development-mode input with
a present, truthy status code and a present, non-empty message. -/
theorem C10_error_handler_response_witness :
    ((some 404 : Option Nat) = some 404 ∧ (404 : Nat) ≠ 0 ∧
     (some "nope" : Option String) = some "nope" ∧ "nope" ≠ "") ∧
    (((errorHandler true (ErrValue.plain ⟨some 404, some "nope", some [], some "st"⟩)).httpStatus
        = (errorHandler true (ErrValue.plain ⟨some 404, some "nope", some [], some "st"⟩)).bodyStatusCode) ∧
     ((errorHandler true (ErrValue.plain ⟨some 404, some "nope", some [], some "st"⟩)).bodyStack
        = if true then some (toApiError (ErrValue.plain ⟨some 404, some "nope", some [], some "st"⟩)).stack else none) ∧
     ((toApiError (ErrValue.plain ⟨some 404, some "nope", some [], some "st"⟩)).stack
        = (⟨some 404, some "nope", some [], some "st"⟩ : PlainError).stack) ∧
     ((⟨some 404, some "nope", some [], some "st"⟩ : PlainError).statusCode = some 404 → (404 : Nat) ≠ 0 →
       (errorHandler true (ErrValue.plain ⟨some 404, some "nope", some [], some "st"⟩)).httpStatus = 404) ∧
     ((⟨some 404, some "nope", some [], some "st"⟩ : PlainError).statusCode = none →
       (errorHandler true (ErrValue.plain ⟨some 404, some "nope", some [], some "st"⟩)).httpStatus = 500) ∧
     ((⟨some 404, some "nope", some [], some "st"⟩ : PlainError).statusCode = some 0 →
       (errorHandler true (ErrValue.plain ⟨some 404, some "nope", some [], some "st"⟩)).httpStatus = 500) ∧
     ((⟨some 404, some "nope", some [], some "st"⟩ : PlainError).message = some "nope" → "nope" ≠ "" →
       (errorHandler true (ErrValue.plain ⟨some 404, some "nope", some [], some "st"⟩)).bodyMessage = "nope") ∧
     ((⟨some 404, some "nope", some [], some "st"⟩ : PlainError).message = none →
       (errorHandler true (ErrValue.plain ⟨some 404, some "nope", some [], some "st"⟩)).bodyMessage
         = internalServerErrorMsg) ∧
     (∀ a : ApiError,
       (errorHandler true (ErrValue.api a)).httpStatus = a.statusCode ∧
       (errorHandler true (ErrValue.api a)).bodyMessage = a.message ∧
       (errorHandler true (ErrValue.api a)).bodyStack
         = if true then some a.stack else none)) :=
  ⟨⟨rfl, by decide, rfl, by decide⟩,
   C10_error_handler_response true ⟨some 404, some "nope", some [], some "st"⟩ 404 "nope"⟩
